import Mathlib

/-!
# FitHub — verification of the spec's claims against the code

Shallow embedding of the FitHub gym-membership application:
* the SQL migration `supabase/migrations/20250414192917_humble_tooth.sql`
  (tables, views, stored procedures, triggers),
* the React pages (`LoginPage`, `RegisterPage`, `ClientDashboard`,
  `AdminDashboard`) and the zod validation schemas (`src/lib/schemas.ts`).

Dates are modelled as integers (days); DECIMAL amounts as integers;
nullable SQL columns as `Option`; SQL `=` on nullable columns follows
SQL three-valued logic (`NULL = x` is never true).
-/

namespace FitHub

/-- `membership_status` enum from the migration. -/
inductive MembershipStatus
  | active
  | expired
  | cancelled
deriving DecidableEq, Repr

/-- `payment_status` enum from the migration. -/
inductive PaymentStatus
  | pending
  | completed
  | failed
deriving DecidableEq, Repr

/-- `user_role` enum from the migration. -/
inductive UserRole
  | admin
  | client
  | trainer
deriving DecidableEq, Repr

/-- Trigger firing events (`INSERT` / `UPDATE` / `DELETE`). -/
inductive TgEvent
  | ins
  | upd
  | del
deriving DecidableEq, Repr

/-- SQL equality on nullable (UUID) columns: `a = b` is true only when both
sides are non-NULL and equal, per SQL three-valued logic. -/
def sqlEqN : Option Nat → Option Nat → Bool
  | some a, some b => a == b
  | _, _ => false

/-- A row of `user_memberships` (UUIDs as `Nat`, dates as `Int` days). -/
structure UserMembership where
  id : Nat
  user_id : Option Nat
  membership_id : Option Nat
  trainer_id : Option Nat
  start_date : Int
  end_date : Int
  status : MembershipStatus
  created_at : Int
  updated_at : Int
deriving DecidableEq, Repr

/-- A row of `payments`. -/
structure Payment where
  id : Nat
  user_id : Option Nat
  membership_id : Option Nat
  amount : Int
  payment_date : Int
  status : PaymentStatus
deriving DecidableEq, Repr

/-- A row of `profiles` (the columns the dashboards read). -/
structure Profile where
  id : Nat
  full_name : String
  email : String
deriving DecidableEq, Repr

/-- A row of `memberships` (the columns the views read). -/
structure MembershipPlan where
  id : Nat
  name : String
  price : Int
  duration_months : Nat
deriving DecidableEq, Repr

/-- A row of `user_workouts` joined with its `workouts` row, as the client
dashboard's query returns it: `workouts (name, exercises)` is `none` when the
`workout_id` foreign key is NULL (no joined row). -/
structure UserWorkoutRow where
  user_id : Option Nat
  workout : Option String
  assigned_date : Int
  completed_date : Option Int
deriving DecidableEq, Repr

/-- The database tables the application touches. -/
structure Database where
  profiles : List Profile
  memberships : List MembershipPlan
  user_memberships : List UserMembership
  user_workouts : List UserWorkoutRow
  payments : List Payment
deriving DecidableEq, Repr

/-! ## Trigger declarations

The migration's `CREATE TRIGGER` statements, reduced to the events each
trigger is attached to. -/

/-- `CREATE TRIGGER trainer_availability_trigger BEFORE INSERT ON
user_memberships`. -/
def trainer_availability_trigger_events : List TgEvent := [.ins]

/-- `CREATE TRIGGER payment_status_trigger AFTER UPDATE ON payments`. -/
def payment_status_trigger_events : List TgEvent := [.upd]

/-- `CREATE TRIGGER user_changes_trigger AFTER INSERT OR UPDATE OR DELETE ON
users`. -/
def user_changes_trigger_events : List TgEvent := [.ins, .upd, .del]

/-! ## Trigger functions and stored procedures -/

/-- The count the `check_trainer_availability` trigger computes:
`SELECT COUNT(*) FROM user_memberships WHERE trainer_id = NEW.trainer_id AND
status = 'active'`. -/
def activeCountFor (t : Option Nat) (rows : List UserMembership) : Nat :=
  (rows.filter fun r => sqlEqN r.trainer_id t && r.status == .active).length

/-- `check_trainer_availability()`: raises when the new row's trainer already
has 10 or more active memberships; otherwise lets the insert through. -/
def check_trainer_availability (rows : List UserMembership)
    (new : UserMembership) : Except String Unit :=
  if 10 ≤ activeCountFor new.trainer_id rows then
    .error "Trainer has reached maximum client capacity"
  else .ok ()

/-- `INSERT INTO user_memberships`, running `trainer_availability_trigger`
before the row is added (the trigger is declared `BEFORE INSERT`). -/
def insert_user_membership (rows : List UserMembership)
    (new : UserMembership) : Except String (List UserMembership) :=
  if trainer_availability_trigger_events.contains .ins then
    match check_trainer_availability rows new with
    | .error e => .error e
    | .ok _ => .ok (rows ++ [new])
  else .ok (rows ++ [new])

/-- `update_membership_status()` stored procedure:
`UPDATE user_memberships SET status = 'expired'
 WHERE end_date < CURRENT_DATE AND status = 'active'`. -/
def update_membership_status (today : Int) (rows : List UserMembership) :
    List UserMembership :=
  rows.map fun r =>
    if r.end_date < today && r.status == .active then
      { r with status := .expired }
    else r

/-- `update_membership_status_on_payment()` trigger function:
`IF NEW.status = 'completed' THEN UPDATE user_memberships SET status='active'
 WHERE user_id = NEW.user_id AND membership_id = NEW.membership_id`. -/
def update_membership_status_on_payment (new : Payment)
    (rows : List UserMembership) : List UserMembership :=
  if new.status == .completed then
    rows.map fun r =>
      if sqlEqN r.user_id new.user_id && sqlEqN r.membership_id new.membership_id then
        { r with status := .active }
      else r
  else rows

/-! ## Database operations and reachability (for the capacity invariant)

The operations the application and schema can perform on `user_memberships`
and `payments`: inserting a membership (guarded by the BEFORE INSERT
trigger), running the expiry procedure, inserting a payment, and updating a
payment's status (firing the AFTER UPDATE trigger). A failed statement
leaves the database unchanged, so failing traces are simply dropped. -/

inductive Op
  | insMembership (r : UserMembership)
  | runExpiry (today : Int)
  | insPayment (p : Payment)
  | updPayment (idx : Nat) (s : PaymentStatus)
deriving Repr

def execOp (db : Database) : Op → Option Database
  | .insMembership r =>
    match insert_user_membership db.user_memberships r with
    | .ok rows => some { db with user_memberships := rows }
    | .error _ => none
  | .runExpiry today =>
    some { db with
            user_memberships := update_membership_status today db.user_memberships }
  | .insPayment p =>
    let ums :=
      if payment_status_trigger_events.contains .ins then
        update_membership_status_on_payment p db.user_memberships
      else db.user_memberships
    some { db with user_memberships := ums, payments := db.payments ++ [p] }
  | .updPayment idx s =>
    match db.payments[idx]? with
    | none => none
    | some old =>
      let newP := { old with status := s }
      let ums :=
        if payment_status_trigger_events.contains .upd then
          update_membership_status_on_payment newP db.user_memberships
        else db.user_memberships
      some { db with user_memberships := ums, payments := db.payments.set idx newP }

def execOps : Database → List Op → Option Database
  | db, [] => some db
  | db, op :: ops =>
    match execOp db op with
    | some db' => execOps db' ops
    | none => none

/-- The empty database the migration starts from. -/
def Database.init : Database := ⟨[], [], [], [], []⟩

/-- A database state is reachable when some sequence of operations produces
it from the empty initial state. -/
def Reachable (db : Database) : Prop :=
  ∃ ops, execOps Database.init ops = some db

/-! ## Shared helper lemmas -/

theorem sqlEqN_eq_true {a b : Option Nat} (h : sqlEqN a b = true) : a = b := by
  cases a <;> cases b <;> simp_all [sqlEqN]

theorem insert_ok_iff (rows : List UserMembership) (r : UserMembership)
    (rows' : List UserMembership) :
    insert_user_membership rows r = .ok rows' ↔
      activeCountFor r.trainer_id rows < 10 ∧ rows' = rows ++ [r] := by
  have hc : trainer_availability_trigger_events.contains TgEvent.ins = true := by decide
  simp only [insert_user_membership, hc, if_true, check_trainer_availability]
  by_cases h : 10 ≤ activeCountFor r.trainer_id rows
  · simp [h, Nat.not_lt.mpr h]
  · simp [h, Nat.lt_of_not_le h, eq_comm]

theorem activeCountFor_append (t : Option Nat) (rows : List UserMembership)
    (r : UserMembership) :
    activeCountFor t (rows ++ [r]) =
      activeCountFor t rows +
        (if sqlEqN r.trainer_id t && r.status == .active then 1 else 0) := by
  simp only [activeCountFor, List.filter_append, List.length_append]
  congr 1
  by_cases h : (sqlEqN r.trainer_id t && r.status == .active) = true
  · simp [h]
  · simp [h]

/-! ## C1: trainer capacity -/

/-- Membership row `i`, assigned to trainer 1, used in the capacity traces. -/
def umRow (i : Nat) (endDate : Int) : UserMembership :=
  { id := i, user_id := some i, membership_id := some i, trainer_id := some 1,
    start_date := 0, end_date := endDate, status := .active,
    created_at := 0, updated_at := 0 }

/-- The pending payment for membership 1 used in the capacity trace. -/
def c1_payment : Payment :=
  { id := 1, user_id := some 1, membership_id := some 1, amount := 100,
    payment_date := 0, status := .pending }

/-- A trace that drives trainer 1 to eleven active memberships: ten inserts
(the first expiring at day 0), the expiry procedure at day 1 (freeing a
slot), an eleventh insert, then a payment for the expired membership marked
completed, whose trigger re-activates it. -/
def c1_ops : List Op :=
  [ .insMembership (umRow 1 0),
    .insMembership (umRow 2 100), .insMembership (umRow 3 100),
    .insMembership (umRow 4 100), .insMembership (umRow 5 100),
    .insMembership (umRow 6 100), .insMembership (umRow 7 100),
    .insMembership (umRow 8 100), .insMembership (umRow 9 100),
    .insMembership (umRow 10 100),
    .runExpiry 1,
    .insMembership (umRow 11 100),
    .insPayment c1_payment,
    .updPayment 0 .completed ]

/-- The state `c1_ops` reaches: trainer 1 holds eleven active memberships. -/
def c1_final : Database :=
  { profiles := [], memberships := [],
    user_memberships :=
      [ umRow 1 0, umRow 2 100, umRow 3 100, umRow 4 100, umRow 5 100,
        umRow 6 100, umRow 7 100, umRow 8 100, umRow 9 100, umRow 10 100,
        umRow 11 100 ],
    user_workouts := [],
    payments := [{ c1_payment with status := .completed }] }

/-- C1 (counterexample): the claimed invariant fails — the state `c1_final`,
reached by the concrete trace `c1_ops`, has trainer 1 assigned eleven
`user_memberships` rows with status active: the payment-completion trigger
re-activated an expired membership past the capacity limit. -/
theorem C1_trainer_capacity_counterexample :
    Reachable c1_final ∧ 10 < activeCountFor (some 1) c1_final.user_memberships :=
  ⟨⟨c1_ops, by decide⟩, by decide⟩

/-- C1 (amended): the `check_trainer_availability` trigger rejects any insert
into `user_memberships` whose `trainer_id` already has 10 or more active
memberships, and a successful insert never raises a trainer's
active-membership count past 10; but the invariant does not hold of all
reachable states: the payment-completion trigger can re-activate an expired
membership and raise a trainer's active count past the limit. -/
theorem C1_trainer_capacity :
    (∀ (rows : List UserMembership) (r : UserMembership),
        10 ≤ activeCountFor r.trainer_id rows →
        insert_user_membership rows r =
          .error "Trainer has reached maximum client capacity")
  ∧ (∀ (rows rows' : List UserMembership) (r : UserMembership),
        insert_user_membership rows r = .ok rows' →
        ∀ t, activeCountFor t rows ≤ 10 → activeCountFor t rows' ≤ 10)
  ∧ (Reachable c1_final ∧ 10 < activeCountFor (some 1) c1_final.user_memberships) := by
  refine ⟨?_, ?_, ⟨c1_ops, by decide⟩, by decide⟩
  · intro rows r h
    have hc : trainer_availability_trigger_events.contains TgEvent.ins = true := by decide
    simp [insert_user_membership, hc, check_trainer_availability, h,
      trainer_availability_trigger_events]
  · intro rows rows' r hok t hle
    rw [insert_ok_iff] at hok
    obtain ⟨hlt, rfl⟩ := hok
    rw [activeCountFor_append]
    by_cases h : (sqlEqN r.trainer_id t && r.status == .active) = true
    · have ht : r.trainer_id = t := sqlEqN_eq_true (by
        have := h
        simp only [Bool.and_eq_true] at this
        exact this.1)
      subst ht
      simp [h]
      omega
    · simp [h]
      exact hle

/-- C1 witness: the amended theorem applied at concrete inputs — an insert
into an empty table keeps the count at most 10, and an insert for a trainer
with ten active memberships is rejected. -/
theorem C1_trainer_capacity_witness :
    activeCountFor (some 1) [umRow 1 100] ≤ 10 ∧
    insert_user_membership (List.replicate 10 (umRow 1 100)) (umRow 12 100) =
      .error "Trainer has reached maximum client capacity" :=
  ⟨C1_trainer_capacity.2.1 [] [umRow 1 100] (umRow 1 100) rfl (some 1)
      (by decide),
    C1_trainer_capacity.1 (List.replicate 10 (umRow 1 100)) (umRow 12 100)
      (by decide)⟩

/-! ## C2: payment-completion trigger -/

/-- C2: whenever a `payments` row is updated so that its new status is
completed, the `update_membership_status_on_payment` trigger sets status to
active (touching no other field) on every `user_memberships` row with the
same `user_id` and `membership_id`, leaves non-matching rows unchanged, and
an update whose new status is not completed changes no row. -/
theorem C2_payment_trigger (new : Payment) (rows : List UserMembership) :
    (new.status ≠ .completed → update_membership_status_on_payment new rows = rows)
  ∧ (update_membership_status_on_payment new rows).length = rows.length
  ∧ (new.status = .completed →
      ∀ (i : Nat) (r : UserMembership), rows[i]? = some r →
        (update_membership_status_on_payment new rows)[i]? =
          some (if sqlEqN r.user_id new.user_id &&
                   sqlEqN r.membership_id new.membership_id
                then { r with status := .active } else r)) := by
  refine ⟨?_, ?_, ?_⟩
  · intro h
    simp [update_membership_status_on_payment, h]
  · simp only [update_membership_status_on_payment]
    split <;> simp
  · intro h i r hi
    simp [update_membership_status_on_payment, h, List.getElem?_map, hi]

/-- An expired membership row matching payment `c2_new`. -/
def c2_row : UserMembership :=
  { id := 7, user_id := some 3, membership_id := some 4, trainer_id := none,
    start_date := 0, end_date := 50, status := .expired,
    created_at := 0, updated_at := 0 }

/-- A completed payment for user 3 / membership 4. -/
def c2_new : Payment :=
  { id := 2, user_id := some 3, membership_id := some 4, amount := 10,
    payment_date := 5, status := .completed }

/-- C2 witness: the trigger applied to a concrete completed payment and one
matching row re-activates that row. -/
theorem C2_payment_trigger_witness :
    (update_membership_status_on_payment c2_new [c2_row])[0]? =
      some { c2_row with status := .active } := by
  have h := (C2_payment_trigger c2_new [c2_row]).2.2 rfl 0 c2_row rfl
  simpa using h

/-! ## C3: membership expiry procedure -/

/-- C3: running `update_membership_status` sets status to expired on exactly
those rows whose status is active and whose `end_date` is strictly before the
current date; every other row, and every field other than `status` of the
updated rows, is left unchanged (and no row is added or removed). -/
theorem C3_expiry (today : Int) (rows : List UserMembership) :
    (update_membership_status today rows).length = rows.length
  ∧ ∀ (i : Nat) (r : UserMembership), rows[i]? = some r →
      (update_membership_status today rows)[i]? =
        some (if r.status = .active ∧ r.end_date < today
              then { r with status := .expired } else r) := by
  constructor
  · simp [update_membership_status]
  · intro i r hi
    simp only [update_membership_status, List.getElem?_map, hi, Option.map_some]
    by_cases h1 : r.status = .active <;> by_cases h2 : r.end_date < today <;>
      simp [h1, h2]

/-- C3 witness: at day 60, a concrete active membership that ended at day 10
is expired, and an already-expired row is untouched. -/
theorem C3_expiry_witness :
    (update_membership_status 60 [c2_row, umRow 1 10])[1]? =
      some { umRow 1 10 with status := .expired } := by
  have h := (C3_expiry 60 [c2_row, umRow 1 10]).2 1 (umRow 1 10) rfl
  simpa [umRow, c2_row] using h

/-! ## C4: users audit-log trigger -/

/-- The tables the migration's `CREATE TABLE` statements create. -/
def createdTables : List String :=
  ["users", "profiles", "trainers", "memberships", "user_memberships",
   "workouts", "user_workouts", "payments"]

/-- The table `log_user_changes()` inserts into (`INSERT INTO audit_logs`). -/
def log_user_changes_target : String := "audit_logs"

/-- Executing an INSERT against a table name: the statement fails when the
schema contains no such relation. -/
def execInsertInto (schema : List String) (target : String) :
    Except String Unit :=
  if schema.contains target then .ok ()
  else .error ("relation " ++ target ++ " does not exist")

/-- The body of the `log_user_changes()` trigger function: one insert of the
audit row into `audit_logs`. -/
def log_user_changes (schema : List String) : Except String Unit :=
  execInsertInto schema log_user_changes_target

/-- A DML statement on `users` runs `user_changes_trigger` for its event; an
error raised by the AFTER trigger aborts the whole statement. -/
def users_dml (schema : List String) (ev : TgEvent) : Except String Unit :=
  if user_changes_trigger_events.contains ev then log_user_changes schema
  else .ok ()

/-- C4 (code bug): the migration never creates the `audit_logs` table the
trigger inserts into, so every insert, update, or delete on `users` is
aborted by `user_changes_trigger` instead of succeeding and appending an
audit row. -/
theorem C4_audit_log_bug :
    log_user_changes_target ∉ createdTables
  ∧ ∀ ev : TgEvent, users_dml createdTables ev =
      .error ("relation " ++ "audit_logs" ++ " does not exist") := by
  constructor
  · decide
  · intro ev
    cases ev <;> rfl

/-! ## C9: scope of the payment trigger -/

/-- C9: `payment_status_trigger` is attached to UPDATE only (never INSERT or
DELETE); inserting a payment changes no `user_memberships` row even when its
status is completed; and updating any payment to completed — including an
update that leaves an already-completed status unchanged — re-sets every
matching `user_memberships` row to active, whatever its previous status
(expired and cancelled included: no constraint on `r.status` appears below). -/
theorem C9_payment_trigger_scope :
    (TgEvent.ins ∉ payment_status_trigger_events
      ∧ TgEvent.del ∉ payment_status_trigger_events
      ∧ TgEvent.upd ∈ payment_status_trigger_events)
  ∧ (∀ (db : Database) (p : Payment),
      execOp db (.insPayment p) =
        some { db with payments := db.payments ++ [p] })
  ∧ (∀ (db : Database) (idx : Nat) (old : Payment) (i : Nat)
        (r : UserMembership) (db' : Database),
      db.payments[idx]? = some old →
      execOp db (.updPayment idx .completed) = some db' →
      db.user_memberships[i]? = some r →
      (sqlEqN r.user_id old.user_id &&
        sqlEqN r.membership_id old.membership_id) = true →
      db'.user_memberships[i]? = some { r with status := .active }) := by
  refine ⟨by decide, ?_, ?_⟩
  · intro db p
    rfl
  · intro db idx old i r db' hidx hexec hi hmatch
    have hc : payment_status_trigger_events.contains TgEvent.upd = true := by decide
    simp only [execOp, hidx, hc, if_true, Option.some.injEq] at hexec
    subst hexec
    obtain ⟨h1, h2⟩ := (Bool.and_eq_true _ _).mp hmatch
    simp [update_membership_status_on_payment, List.getElem?_map, hi, h1, h2]

/-- A cancelled membership row matching payment `c2_new`. -/
def c9_row : UserMembership :=
  { id := 8, user_id := some 3, membership_id := some 4, trainer_id := none,
    start_date := 0, end_date := 50, status := .cancelled,
    created_at := 0, updated_at := 0 }

/-- A database with one cancelled membership and one already-completed
payment for the same user and membership plan. -/
def c9_db : Database :=
  { profiles := [], memberships := [], user_memberships := [c9_row],
    user_workouts := [], payments := [c2_new] }

/-- C9 witness: updating the already-completed payment of `c9_db` to
completed (an update that changes nothing) re-activates the cancelled
membership row. -/
theorem C9_payment_trigger_scope_witness :
    ({ c9_db with
        user_memberships := [{ c9_row with status := .active }] } :
      Database).user_memberships[0]? = some { c9_row with status := .active } :=
  C9_payment_trigger_scope.2.2 c9_db 0 c2_new 0 c9_row
    { c9_db with user_memberships := [{ c9_row with status := .active }] }
    rfl rfl rfl (by decide)

/-! ## C6: admin dashboard statistics -/

/-- A PostgREST list response: the `data` rows, the `count` field (filled
when the query asked for a count), and `error`. -/
structure SdkListResp (α : Type) where
  data : Option (List α)
  count : Option Nat
  error : Option String

/-- JS property access `.count` on an Array value: arrays have no `count`
property, so the access yields `undefined`. This models the dashboard's
`membersCount?.count`, where `membersCount` is the destructured `data`
array of rows, not the response object carrying the `count` field. -/
def jsArrayCountProp {α : Type} (_xs : List α) : Option Nat := none

/-- The columns of the `upcoming_renewals` view. -/
def upcoming_renewals_view_cols : List String :=
  ["full_name", "email", "membership_plan", "end_date", "renewal_amount"]

/-- A row of the `upcoming_renewals` view. -/
structure RenewalRow where
  full_name : String
  email : String
  membership_plan : String
  end_date : Int
  renewal_amount : Int
deriving DecidableEq, Repr

/-- The `upcoming_renewals` view: active memberships whose `end_date` lies
between the current date and 30 days later (inclusive, per SQL BETWEEN),
inner-joined to `profiles` and `memberships` on their primary keys. -/
def upcoming_renewals (db : Database) (today : Int) : List RenewalRow :=
  db.user_memberships.filterMap fun um =>
    if today ≤ um.end_date ∧ um.end_date ≤ today + 30 ∧ um.status = .active then
      match db.profiles.find? (fun p => sqlEqN um.user_id (some p.id)),
            db.memberships.find? (fun m => sqlEqN um.membership_id (some m.id)) with
      | some p, some m =>
        some ⟨p.full_name, p.email, m.name, um.end_date, m.price⟩
      | _, _ => none
    else none

/-- A row of the revenue query's result (`select('amount')`). -/
structure AmountRow where
  amount : Int
deriving DecidableEq, Repr

/-- `profiles.select('id', { count: 'exact' })`. -/
def profiles_count_resp (db : Database) : SdkListResp Nat :=
  { data := some (db.profiles.map (·.id)), count := some db.profiles.length,
    error := none }

/-- `user_memberships.select('id', { count: 'exact' }).eq('status','active')`. -/
def active_memberships_count_resp (db : Database) : SdkListResp Nat :=
  let rows := db.user_memberships.filter (·.status == .active)
  { data := some (rows.map (·.id)), count := some rows.length, error := none }

/-- `payments.select('amount').eq('status','completed')`. -/
def completed_payments_resp (db : Database) : SdkListResp AmountRow :=
  { data := some ((db.payments.filter (·.status == .completed)).map
      (fun p => ⟨p.amount⟩)),
    count := none, error := none }

/-- `upcoming_renewals.select('id', { count: 'exact' })`: the view has no
`id` column, so the request fails with an error and null data. -/
def renewals_count_resp (db : Database) (today : Int) : SdkListResp RenewalRow :=
  if upcoming_renewals_view_cols.contains "id" then
    let rows := upcoming_renewals db today
    { data := some rows, count := some rows.length, error := none }
  else
    { data := none, count := none,
      error := some "column upcoming_renewals.id does not exist" }

structure DashboardStats where
  totalMembers : Nat
  activeMembers : Nat
  totalRevenue : Int
  upcomingRenewals : Nat
deriving DecidableEq, Repr

/-- `AdminDashboard.fetchDashboardData`, statistics part: each query's
response is destructured to its `data` array alone, and the stats read
`.count` off that array (`membersCount?.count || 0` etc.) and reduce the
revenue rows (`revenue?.reduce((sum, payment) => sum + payment.amount, 0) || 0`). -/
def fetchDashboardStats (db : Database) (today : Int) : DashboardStats :=
  let membersCount := (profiles_count_resp db).data
  let activeMemberships := (active_memberships_count_resp db).data
  let revenue := (completed_payments_resp db).data
  let renewals := (renewals_count_resp db today).data
  { totalMembers := (membersCount.bind jsArrayCountProp).getD 0,
    activeMembers := (activeMemberships.bind jsArrayCountProp).getD 0,
    totalRevenue := (revenue.map (fun l => l.foldl (fun s p => s + p.amount) 0)).getD 0,
    upcomingRenewals := (renewals.bind jsArrayCountProp).getD 0 }

/-- An active membership for user 1 on plan 4, ending at day 10. -/
def c6_um : UserMembership :=
  { id := 7, user_id := some 1, membership_id := some 4, trainer_id := none,
    start_date := 0, end_date := 10, status := .active,
    created_at := 0, updated_at := 0 }

/-- A completed payment of 500 by user 1 for plan 4. -/
def c6_pay : Payment :=
  { id := 2, user_id := some 1, membership_id := some 4, amount := 500,
    payment_date := 0, status := .completed }

/-- A database with one profile, one active membership renewing within 30
days, and one completed payment of 500. -/
def c6_db : Database :=
  { profiles := [⟨1, "Alice", "alice at example.com"⟩],
    memberships := [⟨4, "Gold", 500, 12⟩],
    user_memberships := [c6_um],
    user_workouts := [],
    payments := [c6_pay] }

/-- C6 (code bug): on a database with one profile, one active membership,
one upcoming renewal and 500 of completed revenue, the admin dashboard
computes totalMembers = 0, activeMembers = 0 and upcomingRenewals = 0 —
the code reads `.count` off the returned rows array, which is undefined —
while totalRevenue is computed correctly as 500. -/
theorem C6_admin_stats_bug :
    c6_db.profiles.length = 1
  ∧ (c6_db.user_memberships.filter (·.status == .active)).length = 1
  ∧ (upcoming_renewals c6_db 0).length = 1
  ∧ ((c6_db.payments.filter (·.status == .completed)).map
      (·.amount)).foldl (· + ·) 0 = 500
  ∧ fetchDashboardStats c6_db 0 =
      { totalMembers := 0, activeMembers := 0, totalRevenue := 500,
        upcomingRenewals := 0 } := by
  refine ⟨rfl, by decide, by decide, by decide, by decide⟩

/-! ## C7: form validation (zod schemas in `src/lib/schemas.ts`)

The zod combinators the schemas use, over a library email check
`emailOk` (`z.string().email`) taken as a parameter: the email predicate is
the hosted validation library's, not this repository's code. -/

/-- `z.string().min(n)`. -/
def zMin (n : Nat) (s : String) : Bool := n ≤ s.length

/-- `.optional()`: a missing value passes, a present one is checked. -/
def zOptional {α : Type} (check : α → Bool) : Option α → Bool
  | none => true
  | some v => check v

/-- `z.number().positive()`. -/
def zPositive (q : ℚ) : Bool := 0 < q

/-- The `loginSchema` fields. -/
structure LoginForm where
  email : String
  password : String

/-- The `registrationSchema` fields, after `RegisterPage` converts height and
weight with `parseFloat` and leaves blank optional inputs `undefined`. -/
structure RegistrationForm where
  email : String
  password : String
  fullName : String
  phone : Option String
  height : Option ℚ
  weight : Option ℚ
  dateOfBirth : Option Int
  emergencyContact : Option String
  medicalConditions : Option String

/-- `loginSchema`: `email: z.string().email(), password: z.string().min(8)`. -/
def loginSchemaCheck (emailOk : String → Bool) (f : LoginForm) : Bool :=
  emailOk f.email && zMin 8 f.password

/-- `registrationSchema`: the login fields plus
`fullName: z.string().min(2)`, optional `phone`, positive optional `height`
and `weight`, optional `dateOfBirth`, `emergencyContact`,
`medicalConditions`. -/
def registrationSchemaCheck (emailOk : String → Bool)
    (f : RegistrationForm) : Bool :=
  emailOk f.email && zMin 8 f.password && zMin 2 f.fullName &&
  zOptional (fun _ => true) f.phone &&
  zOptional zPositive f.height && zOptional zPositive f.weight &&
  zOptional (fun _ => true) f.dateOfBirth &&
  zOptional (fun _ => true) f.emergencyContact &&
  zOptional (fun _ => true) f.medicalConditions

/-- `zOptional` succeeds exactly when every supplied value passes. -/
theorem zOptional_eq_true {α : Type} (check : α → Bool) (o : Option α) :
    zOptional check o = true ↔ ∀ v, o = some v → check v = true := by
  cases o <;> simp [zOptional]

/-- C7: login validation succeeds iff the email passes the library's email
check and the password has at least 8 characters; registration validation
succeeds iff additionally the full name has at least 2 characters and any
supplied height or weight is strictly positive — phone, date of birth,
emergency contact and medical conditions impose no constraint. -/
theorem C7_validation (emailOk : String → Bool) (lf : LoginForm)
    (rf : RegistrationForm) :
    (loginSchemaCheck emailOk lf = true ↔
      emailOk lf.email = true ∧ 8 ≤ lf.password.length)
  ∧ (registrationSchemaCheck emailOk rf = true ↔
      emailOk rf.email = true ∧ 8 ≤ rf.password.length ∧
      2 ≤ rf.fullName.length ∧
      (∀ h : ℚ, rf.height = some h → 0 < h) ∧
      (∀ w : ℚ, rf.weight = some w → 0 < w)) := by
  constructor
  · simp [loginSchemaCheck, zMin]
  · simp only [registrationSchemaCheck, Bool.and_eq_true, zMin,
      zOptional_eq_true, zPositive, decide_eq_true_eq]
    constructor
    · rintro ⟨⟨⟨⟨⟨⟨⟨⟨he, hp⟩, hn⟩, -⟩, hh⟩, hw⟩, -⟩, -⟩, -⟩
      exact ⟨he, hp, hn, hh, hw⟩
    · rintro ⟨he, hp, hn, hh, hw⟩
      exact ⟨⟨⟨⟨⟨⟨⟨⟨he, hp⟩, hn⟩, fun _ _ => trivial⟩, hh⟩, hw⟩,
        fun _ _ => trivial⟩, fun _ _ => trivial⟩, fun _ _ => trivial⟩

/-- C7 witness: the biconditionals applied at a concrete accepting login
form and a concrete registration form rejected for a non-positive weight
(email check instantiated to non-emptiness). -/
theorem C7_validation_witness :
    loginSchemaCheck (fun s => 0 < s.length) ⟨"a@b.com", "longpass"⟩ = true
  ∧ registrationSchemaCheck (fun s => 0 < s.length)
      { email := "a@b.com", password := "longpass", fullName := "Al",
        phone := none, height := some 170, weight := some 0,
        dateOfBirth := none, emergencyContact := none,
        medicalConditions := none } = false := by
  constructor
  · exact (C7_validation (fun s => 0 < s.length) ⟨"a@b.com", "longpass"⟩
      { email := "", password := "", fullName := "", phone := none,
        height := none, weight := none, dateOfBirth := none,
        emergencyContact := none, medicalConditions := none }).1.mpr
      (by constructor <;> decide)
  · have h := (C7_validation (fun s => 0 < s.length)
      ⟨"a@b.com", "longpass"⟩
      { email := "a@b.com", password := "longpass", fullName := "Al",
        phone := none, height := some 170, weight := some 0,
        dateOfBirth := none, emergencyContact := none,
        medicalConditions := none }).2
    rw [Bool.eq_false_iff]
    intro hc
    have := (h.mp hc).2.2.2.2 0 rfl
    exact absurd this (by decide)

/-! ## C8: client dashboard -/

/-- The columns of the `active_memberships` view. -/
def active_memberships_view_cols : List String :=
  ["id", "user_name", "membership_name", "start_date", "end_date",
   "trainer_name"]

/-- The columns `ClientDashboard`'s membership query selects. -/
def client_membership_select_cols : List String :=
  ["name", "end_date", "trainer_name"]

/-- The column `ClientDashboard`'s membership query filters on. -/
def client_membership_filter_col : String := "user_id"

/-- The row shape the membership query would return. -/
structure ClientMemRow where
  name : String
  end_date : Int
  trainer_name : Option String
deriving DecidableEq, Repr

/-- The user's rows of the `active_memberships` view (active memberships
inner-joined to `profiles` and `memberships`, trainer name left-joined). -/
def active_memberships_rows (db : Database) (uid : Nat) : List ClientMemRow :=
  db.user_memberships.filterMap fun um =>
    if um.status = .active ∧ sqlEqN um.user_id (some uid) then
      match db.memberships.find? (fun m => sqlEqN um.membership_id (some m.id)),
            db.profiles.find? (fun p => sqlEqN um.user_id (some p.id)) with
      | some m, some _ =>
        some ⟨m.name, um.end_date,
          (db.profiles.find?
            (fun t => sqlEqN um.trainer_id (some t.id))).map (·.full_name)⟩
      | _, _ => none
    else none

/-- `.single()`: data is the row when the result has exactly one row,
otherwise an error is returned and data is null. -/
def singleRow {α : Type} : List α → Option α
  | [r] => some r
  | _ => none

/-- `ClientDashboard`'s membership query:
`from('active_memberships').select('name, end_date, trainer_name')
.eq('user_id', user.id).single()`. The view exposes neither `user_id` nor
`name`, so the request is rejected and the destructured `data` is null. -/
def clientMembershipData (db : Database) (uid : Nat) : Option ClientMemRow :=
  if client_membership_filter_col ∈ active_memberships_view_cols
      ∧ ∀ col ∈ client_membership_select_cols,
          col ∈ active_memberships_view_cols then
    singleRow (active_memberships_rows db uid)
  else none

/-- `ClientDashboard`'s workout query: `from('user_workouts')` filtered to
the user, ordered by `assigned_date` descending, limited to 5 rows. -/
def client_workouts_query (db : Database) (uid : Nat) : List UserWorkoutRow :=
  ((db.user_workouts.filter fun r =>
      sqlEqN r.user_id (some uid)).insertionSort
      (fun a b => b.assigned_date ≤ a.assigned_date)).take 5

/-- A workout entry as the dashboard state holds it. -/
structure ShownWorkout where
  name : String
  assigned_date : Int
  completed_date : Option Int
deriving DecidableEq, Repr

/-- The mapping in `fetchUserData`: `w.workouts.name` throws when a joined
workout is null, in which case `setWorkouts` is never reached and the
rendered list keeps its initial value `[]`. -/
def clientWorkoutsShown (db : Database) (uid : Nat) : List ShownWorkout :=
  let rows := client_workouts_query db uid
  if rows.all (fun r => r.workout.isSome) then
    rows.map fun r => ⟨r.workout.getD "", r.assigned_date, r.completed_date⟩
  else []

/-- The badge the render gives each workout:
`workout.completed_date ? 'Completed' : 'Pending'`. -/
def workoutBadge (w : ShownWorkout) : String :=
  if w.completed_date.isSome then "Completed" else "Pending"

/-- `membership?.name || 'No active membership'` (JS `||` also falls back on
an empty name). -/
def membershipNameShown (m : Option ClientMemRow) : String :=
  match m with
  | none => "No active membership"
  | some r => if r.name = "" then "No active membership" else r.name

/-- The expiry line (`membership && <p>Expires…</p>`) renders only when the
membership is non-null. -/
def expiryShown (m : Option ClientMemRow) : Bool := m.isSome

/-- C8: the client dashboard lists at most 5 workouts, all belonging to the
signed-in user, ordered latest `assigned_date` first; each is badged
Completed exactly when its `completed_date` is non-null and Pending
otherwise; and when the user has no active membership the dashboard shows
the text No active membership and no expiry date. -/
theorem C8_client_dashboard (db : Database) (uid : Nat) :
    (clientWorkoutsShown db uid).length ≤ 5
  ∧ (clientWorkoutsShown db uid).Pairwise
      (fun a b => b.assigned_date ≤ a.assigned_date)
  ∧ (∀ r ∈ client_workouts_query db uid, sqlEqN r.user_id (some uid) = true)
  ∧ (∀ w ∈ clientWorkoutsShown db uid,
      (workoutBadge w = "Completed" ↔ w.completed_date ≠ none)
      ∧ (workoutBadge w = "Pending" ↔ w.completed_date = none))
  ∧ ((∀ um ∈ db.user_memberships,
        ¬(sqlEqN um.user_id (some uid) = true ∧ um.status = .active)) →
      membershipNameShown (clientMembershipData db uid) = "No active membership"
      ∧ expiryShown (clientMembershipData db uid) = false) := by
  have hsorted :
      (client_workouts_query db uid).Pairwise
        (fun a b => b.assigned_date ≤ a.assigned_date) := by
    haveI : IsTotal UserWorkoutRow
        (fun a b => b.assigned_date ≤ a.assigned_date) :=
      ⟨fun a b => le_total b.assigned_date a.assigned_date⟩
    haveI : IsTrans UserWorkoutRow
        (fun a b => b.assigned_date ≤ a.assigned_date) :=
      ⟨fun _ _ _ hab hbc => le_trans hbc hab⟩
    apply List.Pairwise.sublist (List.take_sublist _ _)
    exact List.sorted_insertionSort _ _
  refine ⟨?_, ?_, ?_, ?_, ?_⟩
  · simp only [clientWorkoutsShown]
    split
    · simp only [client_workouts_query, List.length_map, List.length_take]
      exact Nat.min_le_left 5 _
    · simp
  · simp only [clientWorkoutsShown]
    split
    · exact (List.pairwise_map.mpr (by simpa using hsorted))
    · exact List.Pairwise.nil
  · intro r hr
    have := (List.take_sublist 5 _).subset hr
    exact (List.mem_filter.mp
      ((List.perm_insertionSort _ _).subset this)).2
  · intro w _
    cases h : w.completed_date <;> simp [workoutBadge, h]
  · intro _
    have hnone : clientMembershipData db uid = none := by
      simp only [clientMembershipData]
      rw [if_neg]
      simp [client_membership_filter_col, active_memberships_view_cols]
    simp [hnone, membershipNameShown, expiryShown]

/-- C8 witness: in the empty database (where user 1 has no active
membership) the dashboard shows No active membership and no expiry date. -/
theorem C8_client_dashboard_witness :
    membershipNameShown (clientMembershipData Database.init 1) =
      "No active membership"
  ∧ expiryShown (clientMembershipData Database.init 1) = false :=
  (C8_client_dashboard Database.init 1).2.2.2.2 (by simp [Database.init])

/-! ## C5 and C10: error surfacing in the UI handlers

Each handler is embedded as a function from the results its SDK calls
return (supplied as inputs) to the sequence of observable effects it
performs: SDK calls made, dialogs shown, console logs, navigations. -/

/-- An observable effect of a handler. -/
inductive Effect
  | sdkCall (name : String)
  | dialog (icon : String) (title : String)
  | consoleError (tag : String)
  | navigate (path : String)
deriving DecidableEq, Repr

/-- An error object returned by the SDK. -/
structure SdkError where
  message : String
deriving DecidableEq, Repr

/-- A PostgREST single-row response as the handlers destructure it. -/
structure SingleResp (α : Type) where
  data : Option α
  error : Option SdkError

def isDialog : Effect → Bool
  | .dialog _ _ => true
  | _ => false

/-- The SDK calls a trace contains, in order. -/
def callNames (tr : List Effect) : List String :=
  tr.filterMap fun e =>
    match e with
    | .sdkCall n => some n
    | _ => none

/-- `LoginPage.handleSubmit`: zod parse (throwing to the catch when
validation fails), `signInWithPassword` (error thrown to the catch, which
shows the error dialog), then the `users` role query whose response is
destructured to `data` alone — its `error` is never read — and a navigation
chosen by the fetched role. -/
def login_handleSubmit (validated : Bool)
    (signIn : Except SdkError Nat) (roleResp : SingleResp UserRole) :
    List Effect :=
  if validated = false then [.dialog "error" "Login Failed"]
  else
    .sdkCall "auth.signInWithPassword" ::
    match signIn with
    | .error _ => [.dialog "error" "Login Failed"]
    | .ok _ =>
      .sdkCall "users.select(role)" ::
      (match roleResp.data with
       | some .admin => [.navigate "/admin"]
       | _ => [.navigate "/dashboard"])

/-- `RegisterPage.handleSubmit`: zod parse, `auth.signUp` (error thrown),
the `users` insert whose `error` destructuring (`userRegister`) is never
checked, the `profiles` insert (error thrown), then the success dialog and
the navigation to /login. -/
def register_handleSubmit (validated : Bool)
    (signUp : Except SdkError Nat) (_usersInsertError : Option SdkError)
    (profilesInsertError : Option SdkError) : List Effect :=
  if validated = false then [.dialog "error" "Registration Failed"]
  else
    .sdkCall "auth.signUp" ::
    match signUp with
    | .error _ => [.dialog "error" "Registration Failed"]
    | .ok _ =>
      .sdkCall "users.insert" :: .sdkCall "profiles.insert" ::
      match profilesInsertError with
      | some _ => [.dialog "error" "Registration Failed"]
      | none => [.dialog "success" "Registration Successful",
                 .navigate "/login"]

/-- `ClientDashboard.fetchUserData`: every query response is destructured to
`data` alone and the catch only logs to the console (reached when a joined
workout is null and `w.workouts.name` throws); no dialog exists on any
path. -/
def fetchUserData_effects (authUser : Option Nat)
    (_profResp : SingleResp Profile) (_memResp : SingleResp ClientMemRow)
    (workResp : SingleResp (List UserWorkoutRow)) : List Effect :=
  match authUser with
  | none => [.sdkCall "auth.getUser"]
  | some _ =>
    [.sdkCall "auth.getUser", .sdkCall "profiles.select",
     .sdkCall "active_memberships.select", .sdkCall "user_workouts.select"]
    ++ (match workResp.data with
        | some rows =>
          if rows.all (fun r => r.workout.isSome) then []
          else [.consoleError "Error fetching user data"]
        | none => [])

/-- The error response used by the C5 counterexample's role query. -/
def c5_roleErr : SingleResp UserRole :=
  { data := none, error := some ⟨"permission denied for table users"⟩ }

/-- C5 (counterexample): a login whose role query returns an SDK error
surfaces no dialog at all — the handler ignores the response's `error`
field and simply navigates to /dashboard. -/
theorem C5_counterexample :
    c5_roleErr.error.isSome = true
  ∧ "users.select(role)" ∈ callNames (login_handleSubmit true (.ok 1) c5_roleErr)
  ∧ (login_handleSubmit true (.ok 1) c5_roleErr).filter isDialog = []
  ∧ .navigate "/dashboard" ∈ login_handleSubmit true (.ok 1) c5_roleErr := by
  refine ⟨rfl, ?_, rfl, ?_⟩ <;> simp [login_handleSubmit, callNames, c5_roleErr]

/-- C5 (amended): errors of the auth sign-in, auth sign-up and
profiles-insert calls are surfaced as exactly one user-facing error dialog,
and no handler ever repeats an SDK call (no retry); but the role query in
login, the users insert in registration and the dashboard fetches are not
surfaced: their responses' error fields are never read (the login trace is
unchanged under any role-query error, and the dashboard fetch shows no
dialog on any input). -/
theorem C5_error_surfacing :
    (∀ (e : SdkError) (roleResp : SingleResp UserRole),
      (login_handleSubmit true (.error e) roleResp).filter isDialog =
        [.dialog "error" "Login Failed"])
  ∧ (∀ (e : SdkError) (ue pe : Option SdkError),
      (register_handleSubmit true (.error e) ue pe).filter isDialog =
        [.dialog "error" "Registration Failed"])
  ∧ (∀ (a : Nat) (ue : Option SdkError) (pe : SdkError),
      (register_handleSubmit true (.ok a) ue (some pe)).filter isDialog =
        [.dialog "error" "Registration Failed"])
  ∧ (∀ (v : Bool) (s : Except SdkError Nat) (d : Option UserRole)
        (e₁ e₂ : Option SdkError),
      login_handleSubmit v s ⟨d, e₁⟩ = login_handleSubmit v s ⟨d, e₂⟩)
  ∧ (∀ (u : Option Nat) (p : SingleResp Profile) (m : SingleResp ClientMemRow)
        (w : SingleResp (List UserWorkoutRow)),
      (fetchUserData_effects u p m w).filter isDialog = [])
  ∧ (∀ (v : Bool) (s : Except SdkError Nat) (r : SingleResp UserRole),
      (callNames (login_handleSubmit v s r)).Nodup)
  ∧ (∀ (v : Bool) (s : Except SdkError Nat) (ue pe : Option SdkError),
      (callNames (register_handleSubmit v s ue pe)).Nodup)
  ∧ (∀ (u : Option Nat) (p : SingleResp Profile) (m : SingleResp ClientMemRow)
        (w : SingleResp (List UserWorkoutRow)),
      (callNames (fetchUserData_effects u p m w)).Nodup) := by
  refine ⟨?_, ?_, ?_, ?_, ?_, ?_, ?_, ?_⟩
  · intro e r
    rfl
  · intro e ue pe
    rfl
  · intro a ue pe
    rfl
  · intro v s d e₁ e₂
    cases v <;> cases s <;> rfl
  · intro u p m w
    cases u with
    | none => rfl
    | some x =>
      simp only [fetchUserData_effects]
      cases w.data with
      | none => rfl
      | some rows =>
        simp only [List.filter_append]
        split <;> rfl
  · intro v s r
    cases v <;> cases s <;> simp [login_handleSubmit, callNames] <;>
      rcases r.data with _ | ⟨_ | _ | _⟩ <;> decide
  · intro v s ue pe
    cases v <;> cases s <;> cases pe <;>
      simp [register_handleSubmit, callNames] <;> decide
  · intro u p m w
    cases u with
    | none =>
      show (callNames [Effect.sdkCall "auth.getUser"]).Nodup
      decide
    | some x =>
      simp only [fetchUserData_effects, callNames]
      cases w.data with
      | none => decide
      | some rows =>
        simp only [List.filterMap_append]
        split <;> decide

/-- C5 witness: the amended theorem at a concrete failing sign-in and a
concrete dashboard fetch (no dialog). -/
theorem C5_error_surfacing_witness :
    (login_handleSubmit true (.error ⟨"Invalid login credentials"⟩)
        c5_roleErr).filter isDialog = [.dialog "error" "Login Failed"]
  ∧ (fetchUserData_effects (some 1) ⟨none, none⟩ ⟨none, none⟩
        ⟨none, some ⟨"network error"⟩⟩).filter isDialog = [] :=
  ⟨C5_error_surfacing.1 ⟨"Invalid login credentials"⟩ c5_roleErr,
   C5_error_surfacing.2.2.2.2.1 (some 1) ⟨none, none⟩ ⟨none, none⟩
     ⟨none, some ⟨"network error"⟩⟩⟩

/-- C10: the registration handler never inspects the error of the `users`
insert: its trace is identical for every value of that error, and whenever
the auth sign-up and the profiles insert both succeed it shows the success
dialog and navigates to /login even when the users insert failed. -/
theorem C10_users_insert_error_ignored :
    (∀ (v : Bool) (s : Except SdkError Nat) (pe : Option SdkError)
        (e₁ e₂ : Option SdkError),
      register_handleSubmit v s e₁ pe = register_handleSubmit v s e₂ pe)
  ∧ (∀ (a : Nat) (ue : Option SdkError),
      register_handleSubmit true (.ok a) ue none =
        [.sdkCall "auth.signUp", .sdkCall "users.insert",
         .sdkCall "profiles.insert",
         .dialog "success" "Registration Successful",
         .navigate "/login"]) := by
  constructor
  · intro v s pe e₁ e₂
    cases v <;> cases s <;> rfl
  · intro a ue
    rfl

end FitHub
